import Mathlib

/-!
Shallow embedding of `src/frontend/src/pages/Analyze.tsx`, which contains the
two page components of the repository: `AnalyzePage` (sentiment + sales-loss
analysis form with a results panel) and `DashboardPage` (KPI cards, chart
panels, insights and alert banners).

Numbers carried by the JSON responses are modelled as rationals; machine
floating point is not needed for any of the properties below.  The asynchronous
`await`-sequenced handlers are modelled as pure state-transition functions that
additionally emit the ordered list of observable events (state setters and
HTTP requests) that the handler performs, so that temporal claims about the
order of requests and commits can be stated directly.
-/

namespace Sales

/-- Response shape of `POST /analyze-sentiment` (`SentimentAnalysisResponse`). -/
structure SentimentAnalysisResponse where
  average_sentiment : ℚ
  total_posts : ℤ
  negative_percentage : ℚ
  deriving DecidableEq, Repr

/-- Response shape of `POST /predict-sales-loss` (`SalesLossPredictionResponse`). -/
structure SalesLossPredictionResponse where
  predicted_drop_percentage : ℚ
  loss_probability : ℚ
  risk_level : String
  explanation : String
  deriving DecidableEq, Repr

/-- Request body sent by `submit` to both endpoints (Analyze.tsx lines 35-51). -/
structure AnalyzeRequestBody where
  product_name : String
  brand_name : String
  platform : String
  start_date : String
  end_date : String
  deriving DecidableEq, Repr

/-- Local component state of `AnalyzePage` (Analyze.tsx lines 22-29). -/
structure AnalyzeState where
  product : String
  brand : String
  platform : String
  rangeStart : String
  rangeEnd : String
  loading : Bool
  sentiment : Option SentimentAnalysisResponse
  prediction : Option SalesLossPredictionResponse
  error : String
  deriving DecidableEq, Repr

/-- Outcome of one HTTP call: either the parsed response data, or the error
value thrown by the client. -/
inductive ApiResult (α : Type) where
  | ok (data : α)
  | err (e : String)
  deriving DecidableEq, Repr

/-- Modelled from the spec: the shared API client (`../api/client`, not under
`src/`) normalizes any transport or backend error to a single human-readable
string before it reaches the component; modelled as the error message itself. -/
def formatError (e : String) : String := e

/-- Observable events of one run of the `submit` handler, in program order. -/
inductive AEvent where
  | setLoading (b : Bool)
  | setError (msg : String)
  | postSentiment (body : AnalyzeRequestBody)
  | setSentiment (r : SentimentAnalysisResponse)
  | postPrediction (body : AnalyzeRequestBody)
  | setPrediction (r : SalesLossPredictionResponse)
  deriving DecidableEq, Repr

/-- The body `submit` constructs from the current form state
(Analyze.tsx lines 36-40 and 46-50; both requests use the same fields). -/
def analyzeBody (s : AnalyzeState) : AnalyzeRequestBody :=
  { product_name := s.product
    brand_name := s.brand
    platform := s.platform
    start_date := s.rangeStart
    end_date := s.rangeEnd }

/-- The `submit` handler (Analyze.tsx lines 31-59): set loading, clear the
error, `await` the sentiment request, store its data, `await` the prediction
request, store its data; any failure is caught and stored as a formatted
error message, and the `finally` block always resets loading.  The two
backend calls are supplied as oracles mapping the request body to a result;
the second component is the ordered event trace of the run. -/
def submit (s : AnalyzeState)
    (apiSentiment : AnalyzeRequestBody → ApiResult SentimentAnalysisResponse)
    (apiPrediction : AnalyzeRequestBody → ApiResult SalesLossPredictionResponse) :
    AnalyzeState × List AEvent :=
  let s1 := { s with loading := true, error := "" }
  let pre : List AEvent := [.setLoading true, .setError ""]
  -- the body reads only the form fields, which the loading/error setters
  -- do not touch
  let body := analyzeBody s
  match apiSentiment body with
  | .err e =>
      ({ s1 with error := formatError e, loading := false },
        pre ++ [.postSentiment body, .setError (formatError e), .setLoading false])
  | .ok sv =>
      let s2 := { s1 with sentiment := some sv }
      match apiPrediction body with
      | .err e =>
          ({ s2 with error := formatError e, loading := false },
            pre ++ [.postSentiment body, .setSentiment sv, .postPrediction body,
              .setError (formatError e), .setLoading false])
      | .ok pv =>
          ({ s2 with prediction := some pv, loading := false },
            pre ++ [.postSentiment body, .setSentiment sv, .postPrediction body,
              .setPrediction pv, .setLoading false])

/-- KPI block of the dashboard response (`data.kpis`). -/
structure DashboardKpis where
  average_sentiment : ℚ
  negative_percentage : ℚ
  predicted_sales_drop : ℚ
  risk_level : String
  deriving DecidableEq, Repr

/-- One point of the sentiment trend chart. -/
structure TrendPoint where
  date : String
  average_sentiment : ℚ
  deriving DecidableEq, Repr

/-- One point of the comment volume chart. -/
structure VolumePoint where
  date : String
  total_posts : ℤ
  deriving DecidableEq, Repr

/-- One point of the actual vs predicted sales chart. -/
structure SalesPoint where
  date : String
  actual_revenue : ℚ
  predicted_revenue : ℚ
  deriving DecidableEq, Repr

/-- Response shape of `GET /get-dashboard-data` (`DashboardResponse`). -/
structure DashboardResponse where
  kpis : DashboardKpis
  sentiment_trend : List TrendPoint
  sentiment_distribution : List (String × ℤ)
  comment_volume : List VolumePoint
  sales_series : List SalesPoint
  ai_insights : List String
  alerts : List String
  deriving DecidableEq, Repr

/-- Local component state of `DashboardPage` (Analyze.tsx lines 216-218). -/
structure DashboardState where
  data : Option DashboardResponse
  error : String
  loading : Bool
  deriving DecidableEq, Repr

/-- Initial `DashboardPage` state: `data` null, empty error, `loading` true. -/
def initialDashboardState : DashboardState :=
  { data := none, error := "", loading := true }

/-- Observable events of one run of the dashboard `fetchData` handler. -/
inductive DEvent where
  | setLoading (b : Bool)
  | setError (msg : String)
  | getDashboard (path : String) (params : List (String × String))
  | setData (d : DashboardResponse)
  deriving DecidableEq, Repr

/-- The fixed query parameters of the dashboard request (Analyze.tsx line 225). -/
def dashboardRequestParams : List (String × String) :=
  [("product_name", "NeoGadget"), ("brand_name", "BlueNova"), ("platform", "Twitter")]

/-- The `fetchData` handler (Analyze.tsx lines 220-233), used both by the
mount effect (line 236) and by the Refresh button (line 348): set loading,
clear the error, `await` the GET request, store its data; a failure is caught
and stored as a formatted error, and `finally` always resets loading. -/
def fetchData (s : DashboardState)
    (apiGet : List (String × String) → ApiResult DashboardResponse) :
    DashboardState × List DEvent :=
  let s1 := { s with loading := true, error := "" }
  let pre : List DEvent := [.setLoading true, .setError ""]
  match apiGet dashboardRequestParams with
  | .ok d =>
      ({ s1 with data := some d, loading := false },
        pre ++ [.getDashboard "/get-dashboard-data" dashboardRequestParams,
          .setData d, .setLoading false])
  | .err e =>
      ({ s1 with error := formatError e, loading := false },
        pre ++ [.getDashboard "/get-dashboard-data" dashboardRequestParams,
          .setError (formatError e), .setLoading false])

/-- `kpiTone` (Analyze.tsx lines 239-243). -/
def kpiTone (risk : String) : String :=
  if risk = "High" then "bad"
  else if risk = "Medium" then "warn"
  else "good"

/-!
`Number.prototype.toFixed(f)` of JavaScript, for the magnitudes occurring
here: the value is scaled by `10 ^ f`, rounded to the nearest integer with
ties away from zero (ECMA-262 picks the larger candidate on the magnitude),
and printed with exactly `f` digits after the decimal point.
-/

/-- JS `x.toFixed(f)` on a rational `x`.  The rounded scaled magnitude
`round(|x| * 10 ^ f)` is computed on the numerator and (positive) denominator
directly: `(|num| * 10 ^ f * 2 + den) / (2 * den)` in natural-number division
is exactly `floor(|x| * 10 ^ f + 1 / 2)`. -/
def jsToFixed (x : ℚ) (f : ℕ) : String :=
  let sign := if x.num < 0 then "-" else ""
  let n : ℕ := (x.num.natAbs * 10 ^ f * 2 + x.den) / (2 * x.den)
  let digits := Nat.toDigits 10 n
  if f = 0 then sign ++ String.mk digits
  else
    let padded := List.replicate (f + 1 - digits.length) '0' ++ digits
    sign ++ String.mk
      (padded.take (padded.length - f) ++ '.' :: padded.drop (padded.length - f))

/-- One rendered KPI card (props of `KPICard`). -/
structure KPICardView where
  label : String
  value : String
  subtext : Option String
  tone : String
  deriving DecidableEq, Repr

/-- The four KPI cards rendered from a dashboard response
(Analyze.tsx lines 252-270), in document order. -/
def kpiCards (d : DashboardResponse) : List KPICardView :=
  [ { label := "Average Sentiment"
      value := jsToFixed d.kpis.average_sentiment 2
      subtext := some "30d rolling"
      tone := kpiTone d.kpis.risk_level },
    { label := "% Negative"
      value := jsToFixed d.kpis.negative_percentage 1 ++ "%"
      subtext := some "Twitter/Reddit blend"
      tone := if d.kpis.negative_percentage > 35 then "bad" else "warn" },
    { label := "Predicted Sales Drop"
      value := jsToFixed d.kpis.predicted_sales_drop 1 ++ "%"
      subtext := some "Short-term"
      tone := kpiTone d.kpis.risk_level },
    { label := "Risk Level"
      value := d.kpis.risk_level
      subtext := none
      tone := kpiTone d.kpis.risk_level } ]

/-- The text lines of the Analyze results panel (Analyze.tsx lines 147-170),
rendered when `!loading && sentiment && prediction`. -/
structure ResultsPanel where
  sentimentScore : String
  postsLine : String
  predictionDrop : String
  lossLine : String
  explanationLine : String
  deriving DecidableEq, Repr

/-- Rendering of the results panel from the two stored responses. -/
def renderResults (s : SentimentAnalysisResponse)
    (p : SalesLossPredictionResponse) : ResultsPanel :=
  { sentimentScore := jsToFixed s.average_sentiment 2 ++ " score"
    postsLine := toString s.total_posts ++ " posts · "
      ++ jsToFixed s.negative_percentage 1 ++ "% negative"
    predictionDrop := jsToFixed p.predicted_drop_percentage 1 ++ "% projected drop"
    lossLine := "Loss probability " ++ jsToFixed (p.loss_probability * 100) 1
      ++ "% · Risk " ++ p.risk_level
    explanationLine := p.explanation }

/-- The guard of the results panel (Analyze.tsx line 147):
`!loading && sentiment && prediction`. -/
def resultsVisible (s : AnalyzeState) : Bool :=
  !s.loading && s.sentiment.isSome && s.prediction.isSome

/-!
Dates (Analyze.tsx lines 9-17).  A JS `Date` is modelled at day granularity
as its epoch day number (days since 1970-01-01); the sub-day time and the
local/UTC offset are abstracted away, so `toISOString().slice(0, 10)` is the
Gregorian calendar date of the epoch day.  `setDate(n)` places the date at
day `n` of its current month with JS out-of-range normalization, which at day
granularity is: subtract the current day-of-month and add `n`.
-/

/-- Gregorian `(year, month, day)` of an epoch day number
(standard civil-from-days conversion). -/
def civilFromDays (z : ℤ) : ℤ × ℤ × ℤ :=
  let z' := z + 719468
  let era := Int.fdiv z' 146097
  let doe := z' - era * 146097
  let yoe := Int.fdiv (doe - Int.fdiv doe 1460 + Int.fdiv doe 36524 - Int.fdiv doe 146096) 365
  let doy := doe - (365 * yoe + Int.fdiv yoe 4 - Int.fdiv yoe 100)
  let mp := Int.fdiv (5 * doy + 2) 153
  let d := doy - Int.fdiv (153 * mp + 2) 5 + 1
  let m := mp + (if mp < 10 then 3 else -9)
  (yoe + era * 400 + (if m ≤ 2 then 1 else 0), m, d)

/-- JS `Date.prototype.getDate()`: the day-of-month of the epoch day. -/
def getDate (z : ℤ) : ℤ := (civilFromDays z).2.2

/-- JS `Date.prototype.setDate(n)` at day granularity: move to day `n` of the
current month, with out-of-range `n` normalized into adjacent months. -/
def setDate (z n : ℤ) : ℤ := z - getDate z + n

/-- Left-pad the decimal digits of a nonnegative integer to `w` digits. -/
def padNum (w : ℕ) (n : ℤ) : String :=
  let digits := Nat.toDigits 10 n.toNat
  String.mk (List.replicate (w - digits.length) '0' ++ digits)

/-- `toISOString().slice(0, 10)`: the `YYYY-MM-DD` rendering of an epoch day. -/
def isoDate (z : ℤ) : String :=
  let c := civilFromDays z
  padNum 4 c.1 ++ "-" ++ padNum 2 c.2.1 ++ "-" ++ padNum 2 c.2.2

/-- `defaultDates` (Analyze.tsx lines 9-17): `end` is the current date,
`start` is a fresh current date moved by `setDate(end.getDate() - 7)`; both
are rendered as `YYYY-MM-DD`.  `today` is the current epoch day. -/
def defaultDates (today : ℤ) : String × String :=
  let endDay := today
  let startDay := setDate today (getDate endDay - 7)
  (isoDate startDay, isoDate endDay)

/-- Initial `AnalyzePage` state (Analyze.tsx lines 22-29): fixed product,
brand and platform defaults, the default date range, not loading, no stored
results, empty error. -/
def initialAnalyzeState (today : ℤ) : AnalyzeState :=
  { product := "NeoGadget"
    brand := "BlueNova"
    platform := "YouTube"
    rangeStart := (defaultDates today).1
    rangeEnd := (defaultDates today).2
    loading := false
    sentiment := none
    prediction := none
    error := "" }

/-!
Null-safety of rendering (claim about guarded field access).  Reading a field
of a possibly-null value is modelled by `deref`, which fails on `none`; each
render function performs `deref` exactly where the JSX dereferences the
nullable state, under the same guards as the JSX conditionals.
-/

/-- Dereference of a nullable value: fails on `null`. -/
def deref {α : Type} (o : Option α) : Except String α :=
  match o with
  | some a => Except.ok a
  | none => Except.error "null dereference"

/-- The Analyze results column (Analyze.tsx lines 145-185): a loading
skeleton while loading; the results panel only under the guard
`!loading && sentiment && prediction`, where both stored responses are
dereferenced; a placeholder when idle with no sentiment. -/
def analyzeResultsView (s : AnalyzeState) : Except String (Option ResultsPanel) :=
  if s.loading then Except.ok none
  else if s.sentiment.isSome && s.prediction.isSome then do
    let sv ← deref s.sentiment
    let pv ← deref s.prediction
    Except.ok (some (renderResults sv pv))
  else Except.ok none

/-- Everything `DashboardPage` renders from `data` (Analyze.tsx lines
245-380): the KPI cards and the four chart panels and the insights list, each
guarded by its own `!loading && data` check, and the alert banners accessed
through optional chaining on `data` (line 365, rendered regardless of
`loading`). -/
structure DashboardView where
  cards : Option (List KPICardView)
  trendChart : Option (List TrendPoint)
  distributionChart : Option (List (String × ℤ))
  volumeChart : Option (List VolumePoint)
  salesChart : Option (List SalesPoint)
  insights : Option (List String)
  alertBanners : List String
  deriving DecidableEq, Repr

/-- One `!loading && data && (...)` guarded panel (the pattern of every
dashboard panel): the nullable `data` is dereferenced only under the guard. -/
def guardedRead {α : Type} (s : DashboardState) (read : DashboardResponse → α) :
    Except String (Option α) :=
  if !s.loading && s.data.isSome then do
    let d ← deref s.data
    Except.ok (some (read d))
  else Except.ok none

/-- Rendering of `DashboardPage` with explicit dereferences of the nullable
`data`, under the same guards as the JSX. -/
def dashboardView (s : DashboardState) : Except String DashboardView := do
  let cards ← guardedRead s kpiCards
  let trend ← guardedRead s (fun d => d.sentiment_trend)
  let distribution ← guardedRead s (fun d => d.sentiment_distribution)
  let volume ← guardedRead s (fun d => d.comment_volume)
  let sales ← guardedRead s (fun d => d.sales_series)
  let insights ← guardedRead s (fun d => d.ai_insights)
  let banners :=
    match s.data with
    | none => []
    | some d => if d.alerts.length ≠ 0 then d.alerts else []
  Except.ok
    { cards := cards
      trendChart := trend
      distributionChart := distribution
      volumeChart := volume
      salesChart := sales
      insights := insights
      alertBanners := banners }

/-!
Concrete fixtures used by witnesses and counterexamples.
-/

/-- A sample sentiment response (average 0.42, 128 posts, 21% negative). -/
def oldSentiment : SentimentAnalysisResponse :=
  { average_sentiment := Rat.divInt 42 100
    total_posts := 128
    negative_percentage := Rat.divInt 21 1 }

/-- A second, different sample sentiment response. -/
def newSentiment : SentimentAnalysisResponse :=
  { average_sentiment := Rat.divInt (-30) 100
    total_posts := 200
    negative_percentage := Rat.divInt 52 1 }

/-- A sample prediction response (drop 12.345%, loss probability 0.5). -/
def oldPrediction : SalesLossPredictionResponse :=
  { predicted_drop_percentage := Rat.divInt 12345 1000
    loss_probability := Rat.divInt 1 2
    risk_level := "Low"
    explanation := "stable demand" }

/-- The event trace of one `submit` run. -/
def submitTrace (s : AnalyzeState)
    (apiSentiment : AnalyzeRequestBody → ApiResult SentimentAnalysisResponse)
    (apiPrediction : AnalyzeRequestBody → ApiResult SalesLossPredictionResponse) :
    List AEvent :=
  (submit s apiSentiment apiPrediction).2

/-- The state after one `submit` run. -/
def submitState (s : AnalyzeState)
    (apiSentiment : AnalyzeRequestBody → ApiResult SentimentAnalysisResponse)
    (apiPrediction : AnalyzeRequestBody → ApiResult SalesLossPredictionResponse) :
    AnalyzeState :=
  (submit s apiSentiment apiPrediction).1

/-- claim C2: if the sentiment request fails, the prediction request is never
issued, the previously stored sentiment and prediction are unchanged, the
formatted error message is stored, and loading ends false. -/
theorem C2_requestA_failure (s : AnalyzeState)
    (apiA : AnalyzeRequestBody → ApiResult SentimentAnalysisResponse)
    (apiB : AnalyzeRequestBody → ApiResult SalesLossPredictionResponse)
    (e : String) (h : apiA (analyzeBody s) = .err e) :
    (∀ b, AEvent.postPrediction b ∉ submitTrace s apiA apiB)
      ∧ (submitState s apiA apiB).sentiment = s.sentiment
      ∧ (submitState s apiA apiB).prediction = s.prediction
      ∧ (submitState s apiA apiB).error = formatError e
      ∧ (submitState s apiA apiB).loading = false := by
  simp [submitTrace, submitState, submit, h]

/-- Witness for C2 at a concrete state and failing sentiment call. -/
theorem C2_requestA_failure_witness :
    (∀ b, AEvent.postPrediction b ∉
        submitTrace (initialAnalyzeState 20737) (fun _ => .err "Network Error")
          (fun _ => .ok oldPrediction))
      ∧ (submitState (initialAnalyzeState 20737) (fun _ => .err "Network Error")
          (fun _ => .ok oldPrediction)).sentiment = (initialAnalyzeState 20737).sentiment
      ∧ (submitState (initialAnalyzeState 20737) (fun _ => .err "Network Error")
          (fun _ => .ok oldPrediction)).prediction = (initialAnalyzeState 20737).prediction
      ∧ (submitState (initialAnalyzeState 20737) (fun _ => .err "Network Error")
          (fun _ => .ok oldPrediction)).error = formatError "Network Error"
      ∧ (submitState (initialAnalyzeState 20737) (fun _ => .err "Network Error")
          (fun _ => .ok oldPrediction)).loading = false :=
  C2_requestA_failure (initialAnalyzeState 20737) (fun _ => .err "Network Error")
    (fun _ => .ok oldPrediction) "Network Error" rfl

/-- claim C3: the two requests are strictly sequential: when the sentiment
request succeeds, the trace continues with exactly post-sentiment, store
sentiment, post-prediction, in that order (so the prediction request begins
only after the sentiment request resolved and its result was stored), the
stored sentiment survives to the final state whatever the prediction outcome,
and when the sentiment request fails no prediction request ever occurs. -/
theorem C3_sequential_requests (s : AnalyzeState)
    (apiA : AnalyzeRequestBody → ApiResult SentimentAnalysisResponse)
    (apiB : AnalyzeRequestBody → ApiResult SalesLossPredictionResponse) :
    (∀ sv, apiA (analyzeBody s) = .ok sv →
        ((submitTrace s apiA apiB).drop 2).take 3 =
            [AEvent.postSentiment (analyzeBody s), AEvent.setSentiment sv,
              AEvent.postPrediction (analyzeBody s)]
          ∧ (submitState s apiA apiB).sentiment = some sv)
      ∧ (∀ e, apiA (analyzeBody s) = .err e →
          ∀ b, AEvent.postPrediction b ∉ submitTrace s apiA apiB) := by
  constructor
  · intro sv h
    cases hb : apiB (analyzeBody s) <;>
      simp [submitTrace, submitState, submit, h, hb]
  · intro e h b
    simp [submitTrace, submit, h]

/-- Witness for C3 at a concrete state with both calls succeeding. -/
theorem C3_sequential_requests_witness :
    ((submitTrace (initialAnalyzeState 20737) (fun _ => .ok oldSentiment)
        (fun _ => .ok oldPrediction)).drop 2).take 3 =
        [AEvent.postSentiment (analyzeBody (initialAnalyzeState 20737)),
          AEvent.setSentiment oldSentiment,
          AEvent.postPrediction (analyzeBody (initialAnalyzeState 20737))]
      ∧ (submitState (initialAnalyzeState 20737) (fun _ => .ok oldSentiment)
          (fun _ => .ok oldPrediction)).sentiment = some oldSentiment :=
  (C3_sequential_requests (initialAnalyzeState 20737) (fun _ => .ok oldSentiment)
    (fun _ => .ok oldPrediction)).1 oldSentiment rfl

/-- claim C4: every `submit` run sets loading true as its first action and
sets it false as its last action, and ends with loading false, in all three
outcomes (both succeed, the sentiment call fails, the prediction call fails). -/
theorem C4_loading_lifecycle (s : AnalyzeState)
    (apiA : AnalyzeRequestBody → ApiResult SentimentAnalysisResponse)
    (apiB : AnalyzeRequestBody → ApiResult SalesLossPredictionResponse) :
    (submitTrace s apiA apiB).head? = some (AEvent.setLoading true)
      ∧ (submitTrace s apiA apiB).getLast? = some (AEvent.setLoading false)
      ∧ (submitState s apiA apiB).loading = false := by
  cases ha : apiA (analyzeBody s) with
  | ok sv =>
    cases hb : apiB (analyzeBody s) <;>
      simp [submitTrace, submitState, submit, ha, hb]
  | err e =>
    simp [submitTrace, submitState, submit, ha]

/-- The event trace of one dashboard `fetchData` run. -/
def fetchDataTrace (t : DashboardState)
    (apiGet : List (String × String) → ApiResult DashboardResponse) :
    List DEvent :=
  (fetchData t apiGet).2

/-- The state after one dashboard `fetchData` run. -/
def fetchDataState (t : DashboardState)
    (apiGet : List (String × String) → ApiResult DashboardResponse) :
    DashboardState :=
  (fetchData t apiGet).1

/-- The Analyze state after a first fully successful cycle. -/
def mixedCycleFirst : AnalyzeState :=
  submitState (initialAnalyzeState 20737) (fun _ => .ok oldSentiment)
    (fun _ => .ok oldPrediction)

/-- The Analyze state after a second cycle on top of `mixedCycleFirst` whose
sentiment call succeeds with a new result and whose prediction call fails. -/
def mixedCycleSecond : AnalyzeState :=
  submitState mixedCycleFirst (fun _ => .ok newSentiment)
    (fun _ => .err "Request failed")

/-- claim C1, counterexample: after a successful cycle and then a cycle in
which the sentiment call succeeds with a different result and the prediction
call fails, the committed, visible results are the new sentiment paired with
the old prediction — a mix of one new and one old result. -/
theorem C1_counterexample :
    mixedCycleFirst.sentiment = some oldSentiment
      ∧ mixedCycleFirst.prediction = some oldPrediction
      ∧ mixedCycleSecond.sentiment = some newSentiment
      ∧ mixedCycleSecond.prediction = some oldPrediction
      ∧ newSentiment ≠ oldSentiment
      ∧ resultsVisible mixedCycleSecond = true := by
  refine ⟨rfl, rfl, rfl, rfl, ?_, rfl⟩
  intro h
  exact absurd (congrArg SentimentAnalysisResponse.total_posts h) (by decide)

/-- claim C1, amended: every fetch cycle first sets loading and clears the
error, and each piece of result state is committed only on a success of its
own request (the dashboard snapshot atomically); in particular the Analyze
sentiment and prediction commits are independent, so a cycle whose sentiment
call succeeds and whose prediction call fails leaves a new sentiment beside
the previous prediction. -/
theorem C1_amended_commit_discipline :
    (∀ (s : AnalyzeState) apiA apiB,
        (submitTrace s apiA apiB).take 2 = [AEvent.setLoading true, AEvent.setError ""]
          ∧ ((submitState s apiA apiB).sentiment = s.sentiment
              ∨ ∃ sv, apiA (analyzeBody s) = .ok sv
                  ∧ (submitState s apiA apiB).sentiment = some sv)
          ∧ ((submitState s apiA apiB).prediction = s.prediction
              ∨ ∃ pv, apiB (analyzeBody s) = .ok pv
                  ∧ (submitState s apiA apiB).prediction = some pv))
      ∧ (∀ (t : DashboardState) apiGet,
          (fetchDataTrace t apiGet).take 2 = [DEvent.setLoading true, DEvent.setError ""]
            ∧ ((fetchDataState t apiGet).data = t.data
                ∨ ∃ d, apiGet dashboardRequestParams = .ok d
                    ∧ (fetchDataState t apiGet).data = some d)) := by
  constructor
  · intro s apiA apiB
    cases ha : apiA (analyzeBody s) with
    | ok sv =>
      cases hb : apiB (analyzeBody s) <;>
        simp [submitTrace, submitState, submit, ha, hb]
    | err e =>
      simp [submitTrace, submitState, submit, ha]
  · intro t apiGet
    cases hg : apiGet dashboardRequestParams <;>
      simp [fetchDataTrace, fetchDataState, fetchData, hg]

/-- claim C5: the results panel renders exactly the returned values under
decimal/percentage formatting — in general each line is the corresponding
response field under `toFixed`, and concretely average sentiment 0.42 renders
"0.42 score", predicted drop 12.345 renders "12.3% projected drop", and loss
probability 0.5 is scaled by 100 and renders "50.0%". -/
theorem C5_results_formatting :
    (∀ (s : SentimentAnalysisResponse) (p : SalesLossPredictionResponse),
        renderResults s p =
          { sentimentScore := jsToFixed s.average_sentiment 2 ++ " score"
            postsLine := toString s.total_posts ++ " posts · "
              ++ jsToFixed s.negative_percentage 1 ++ "% negative"
            predictionDrop := jsToFixed p.predicted_drop_percentage 1
              ++ "% projected drop"
            lossLine := "Loss probability " ++ jsToFixed (p.loss_probability * 100) 1
              ++ "% · Risk " ++ p.risk_level
            explanationLine := p.explanation })
      ∧ (renderResults oldSentiment oldPrediction).sentimentScore = "0.42 score"
      ∧ (renderResults oldSentiment oldPrediction).predictionDrop =
          "12.3% projected drop"
      ∧ (renderResults oldSentiment oldPrediction).lossLine =
          "Loss probability 50.0% · Risk Low" := by
  refine ⟨fun s p => rfl, rfl, rfl, ?_⟩
  have h : oldPrediction.loss_probability * 100 = (50 : ℚ) := by
    show Rat.divInt 1 2 * 100 = 50
    rw [Rat.divInt_eq_div]
    norm_num
  show "Loss probability " ++ jsToFixed (oldPrediction.loss_probability * 100) 1
      ++ "% · Risk " ++ oldPrediction.risk_level = _
  rw [h]
  rfl

/-- A dashboard snapshot with risk level "High" and negative percentage
exactly 35. -/
def highDashboard : DashboardResponse :=
  { kpis :=
      { average_sentiment := Rat.divInt (-20) 100
        negative_percentage := 35
        predicted_sales_drop := 9
        risk_level := "High" }
    sentiment_trend := [{ date := "2026-10-04", average_sentiment := Rat.divInt (-20) 100 }]
    sentiment_distribution := [("negative", 52), ("neutral", 30), ("positive", 18)]
    comment_volume := [{ date := "2026-10-04", total_posts := 200 }]
    sales_series := [{ date := "2026-10-04", actual_revenue := 1000, predicted_revenue := 900 }]
    ai_insights := ["negative spike detected"]
    alerts := ["High risk of sales loss"] }

/-- A dashboard snapshot with risk level "Low" and negative percentage 36. -/
def negDashboard : DashboardResponse :=
  { highDashboard with
      kpis :=
        { average_sentiment := Rat.divInt 10 100
          negative_percentage := 36
          predicted_sales_drop := 2
          risk_level := "Low" } }

/-- claim C6: `kpiTone` maps "High" to "bad", "Medium" to "warn" and any
other string to "good", and a snapshot with risk level "High" renders both
the Average Sentiment card and the Predicted Sales Drop card with tone
"bad". -/
theorem C6_risk_tone :
    (kpiTone "High" = "bad" ∧ kpiTone "Medium" = "warn"
        ∧ ∀ r, r ≠ "High" → r ≠ "Medium" → kpiTone r = "good")
      ∧ ∀ d : DashboardResponse, d.kpis.risk_level = "High" →
          ((kpiCards d).get? 0).map KPICardView.label = some "Average Sentiment"
            ∧ ((kpiCards d).get? 0).map KPICardView.tone = some "bad"
            ∧ ((kpiCards d).get? 2).map KPICardView.label = some "Predicted Sales Drop"
            ∧ ((kpiCards d).get? 2).map KPICardView.tone = some "bad" := by
  refine ⟨⟨rfl, rfl, fun r h1 h2 => ?_⟩, fun d h => ?_⟩
  · simp [kpiTone, h1, h2]
  · simp [kpiCards, kpiTone, h]

/-- Witness for C6: "Low" maps to "good", and the concrete "High" snapshot
renders both cards with tone "bad". -/
theorem C6_risk_tone_witness :
    kpiTone "Low" = "good"
      ∧ (((kpiCards highDashboard).get? 0).map KPICardView.label = some "Average Sentiment"
          ∧ ((kpiCards highDashboard).get? 0).map KPICardView.tone = some "bad"
          ∧ ((kpiCards highDashboard).get? 2).map KPICardView.label = some "Predicted Sales Drop"
          ∧ ((kpiCards highDashboard).get? 2).map KPICardView.tone = some "bad") :=
  ⟨C6_risk_tone.1.2.2 "Low" (by decide) (by decide),
    C6_risk_tone.2 highDashboard rfl⟩

/-- claim C7: the % Negative card's tone is "bad" exactly when the negative
percentage exceeds 35 and "warn" otherwise, for every snapshot (hence
independently of the risk level); 36 gives "bad" and 35 gives "warn". -/
theorem C7_negative_tone :
    (∀ d : DashboardResponse,
        ((kpiCards d).get? 1).map KPICardView.tone =
          some (if d.kpis.negative_percentage > 35 then "bad" else "warn"))
      ∧ (∀ d : DashboardResponse, d.kpis.negative_percentage = 36 →
          ((kpiCards d).get? 1).map KPICardView.tone = some "bad")
      ∧ (∀ d : DashboardResponse, d.kpis.negative_percentage = 35 →
          ((kpiCards d).get? 1).map KPICardView.tone = some "warn") := by
  refine ⟨fun d => ?_, fun d h => ?_, fun d h => ?_⟩
  · simp [kpiCards]
  · norm_num [kpiCards, h]
  · norm_num [kpiCards, h]

/-- Witness for C7: negative percentage 36 with risk "Low" renders "bad",
and 35 with risk "High" renders "warn". -/
theorem C7_negative_tone_witness :
    ((kpiCards negDashboard).get? 1).map KPICardView.tone = some "bad"
      ∧ ((kpiCards highDashboard).get? 1).map KPICardView.tone = some "warn" :=
  ⟨C7_negative_tone.2.1 negDashboard rfl,
    C7_negative_tone.2.2 highDashboard rfl⟩

/-- claim C8: for every current day, the default range ends on the current
date and starts exactly 7 days earlier, both as `YYYY-MM-DD`; concretely, on
2026-10-11 the default range is 2026-10-04 to 2026-10-11. -/
theorem C8_default_date_range :
    (∀ today : ℤ, defaultDates today = (isoDate (today - 7), isoDate today))
      ∧ defaultDates 20737 = ("2026-10-04", "2026-10-11") := by
  refine ⟨fun today => ?_, rfl⟩
  show (isoDate (setDate today (getDate today - 7)), isoDate today) = _
  have h : setDate today (getDate today - 7) = today - 7 := by
    unfold setDate
    ring
  rw [h]

/-- The GET-request events of a dashboard trace. -/
def getRequests (tr : List DEvent) : List DEvent :=
  tr.filter fun e =>
    match e with
    | .getDashboard _ _ => true
    | _ => false

/-- claim C9: every dashboard fetch (the mount effect and Refresh both run
`fetchData`) issues exactly one GET of `/get-dashboard-data` with the fixed
parameters NeoGadget / BlueNova / Twitter, and Twitter differs from the
YouTube platform fixed in the Analyze view's state. -/
theorem C9_fixed_request_params :
    (∀ (t : DashboardState) apiGet,
        getRequests (fetchDataTrace t apiGet) =
          [DEvent.getDashboard "/get-dashboard-data"
            [("product_name", "NeoGadget"), ("brand_name", "BlueNova"),
              ("platform", "Twitter")]])
      ∧ (∀ today : ℤ, (initialAnalyzeState today).platform = "YouTube")
      ∧ ("Twitter" : String) ≠ "YouTube" := by
  refine ⟨fun t apiGet => ?_, fun today => rfl, by decide⟩
  show getRequests (fetchData t apiGet).2 = _
  unfold fetchData
  cases hg : apiGet dashboardRequestParams <;> rfl

/-- `guardedRead` always succeeds: the dereference sits under the
`!loading && data` guard, so its value is the mapped data when idle and
present, and the placeholder otherwise. -/
theorem guardedRead_eq {α : Type} (t : DashboardState)
    (read : DashboardResponse → α) :
    guardedRead t read =
      Except.ok (if t.loading then none else t.data.map read) := by
  rcases t with ⟨d, e, l⟩
  cases l <;> cases d <;> rfl

/-- The explicit successful value of `dashboardView` on any state. -/
theorem dashboardView_ok (t : DashboardState) :
    dashboardView t =
      Except.ok
        { cards := if t.loading then none else t.data.map kpiCards
          trendChart := if t.loading then none
            else t.data.map fun d => d.sentiment_trend
          distributionChart := if t.loading then none
            else t.data.map fun d => d.sentiment_distribution
          volumeChart := if t.loading then none
            else t.data.map fun d => d.comment_volume
          salesChart := if t.loading then none
            else t.data.map fun d => d.sales_series
          insights := if t.loading then none
            else t.data.map fun d => d.ai_insights
          alertBanners :=
            match t.data with
            | none => []
            | some d => if d.alerts.length ≠ 0 then d.alerts else [] } := by
  rcases t with ⟨d, e, l⟩
  cases l <;> cases d <;> rfl

/-- claim C10: rendering is total for every state of either view — the
guarded dereferences of nullable results never fail, including in the
initial states (no results stored; dashboard data null while loading). -/
theorem C10_render_safety :
    (∀ s : AnalyzeState, ∃ v, analyzeResultsView s = Except.ok v)
      ∧ (∀ t : DashboardState, ∃ w, dashboardView t = Except.ok w)
      ∧ analyzeResultsView (initialAnalyzeState 20737) = Except.ok none
      ∧ dashboardView initialDashboardState =
          Except.ok
            { cards := none
              trendChart := none
              distributionChart := none
              volumeChart := none
              salesChart := none
              insights := none
              alertBanners := [] } := by
  refine ⟨fun s => ?_, fun t => ⟨_, dashboardView_ok t⟩, rfl, rfl⟩
  rcases s with ⟨p, b, pf, rs, re, l, sen, pred, er⟩
  cases l <;> cases sen <;> cases pred <;> exact ⟨_, rfl⟩

end Sales
